import Mathlib

/-!
# go_neo4j_tx_manager: core/neo4j/neo4j_database.go

A shallow embedding of the transaction manager, the query gateway, the
connectivity-retry wrapper, the parameter normaliser and the result flattener,
followed by the properties established about them.
-/

namespace Neo4jTx

/-! ## Dynamically typed values (Go `any`) -/

/-- A `time.Time` value, kept as an instant in nanoseconds. -/
structure Time where
  nanos : Int
  deriving DecidableEq, Repr

/-- A `dbtype.LocalDateTime`; the driver declares it as a `time.Time` under another name. -/
structure LocalDateTime where
  instant : Time
  deriving DecidableEq, Repr

/-- The method `LocalDateTime.Time()` of the driver: a conversion back to `time.Time`. -/
def LocalDateTime.Time (t : LocalDateTime) : Time := t.instant

/-- Values that are neither containers nor time values for the two type switches of the
source: strings, numbers, booleans and the like. -/
inductive Scalar where
  | str (s : String)
  | int (i : Int)
  | bool (b : Bool)
  deriving DecidableEq, Repr

/-- The dynamic shapes an `any` can hold that the source distinguishes in its two type
switches (`handleParams`, `mapField`). A Go map is kept as its list of entries; a nil map
and an empty map are both the empty list, since the source only ranges over maps. The same
holds for slices. -/
inductive GoValue where
  /-- The nil interface value. -/
  | nil
  /-- A value of type `map[string]any`. -/
  | mapStringAny (entries : List (String × GoValue))
  /-- A value of type `*time.Time`; `none` is the nil pointer. -/
  | timePtr (p : Option Time)
  /-- A value of type `[]map[string]any`. -/
  | sliceMapStringAny (maps : List (List (String × GoValue)))
  /-- A value of type `[]any`. -/
  | sliceAny (elems : List GoValue)
  /-- A value of type `time.Time`. -/
  | time (t : Time)
  /-- A value of type `dbtype.Node`, with its fields `Id`, `ElementId`, `Labels`, `Props`. -/
  | node (id : Int) (elementId : String) (labels : List String) (props : List (String × GoValue))
  /-- A value of type `dbtype.LocalDateTime`. -/
  | localDateTime (t : LocalDateTime)
  /-- Any other value. -/
  | scalar (s : Scalar)

mutual
/-- The function `handleParams` of the source (lines 168-199). -/
def handleParams : GoValue → GoValue
  | .mapStringAny properties => .mapStringAny (handleParamsEntries properties)
  | .timePtr (some t) => .time t
  | .timePtr none => .nil
  | .sliceMapStringAny properties => .sliceAny (handleParamsMaps properties)
  | .nil => .nil
  | .sliceAny xs => .sliceAny xs
  | .time t => .time t
  | .node i e l p => .node i e l p
  | .localDateTime t => .localDateTime t
  | .scalar s => .scalar s
/-- The loop `for key, property := range properties { results[key] = handleParams(property) }`. -/
def handleParamsEntries : List (String × GoValue) → List (String × GoValue)
  | [] => []
  | (key, property) :: rest => (key, handleParams property) :: handleParamsEntries rest
/-- The loop `for i, property := range properties { results[i] = handleParams(property) }`
over a `[]map[string]any`; each element is a `map[string]any`. -/
def handleParamsMaps : List (List (String × GoValue)) → List GoValue
  | [] => []
  | property :: rest => .mapStringAny (handleParamsEntries property) :: handleParamsMaps rest
end

mutual
/-- The function `mapField` of the source (lines 268-301). -/
def mapField : GoValue → GoValue
  | .node _ _ _ props => .mapStringAny (mapFieldEntries props)
  | .mapStringAny properties => .mapStringAny (mapFieldEntries properties)
  | .localDateTime t => .time t.Time
  | .sliceAny properties => .sliceAny (mapFieldElems properties)
  | .nil => .nil
  | .timePtr p => .timePtr p
  | .sliceMapStringAny ms => .sliceMapStringAny ms
  | .time t => .time t
  | .scalar s => .scalar s
/-- The loop `for key, property := range ... { results[key] = mapField(property) }`. -/
def mapFieldEntries : List (String × GoValue) → List (String × GoValue)
  | [] => []
  | (key, property) :: rest => (key, mapField property) :: mapFieldEntries rest
/-- The loop `for i, property := range properties { results[i] = mapField(property) }`. -/
def mapFieldElems : List GoValue → List GoValue
  | [] => []
  | property :: rest => mapField property :: mapFieldElems rest
end

/-- The type assertion `v.(map[string]any)` as used on the result of `handleParams` in
`StartQueryExecution`. Go panics when the dynamic type differs; the value asserted there is
always a mapping (`handleParams_mapStringAny`), so the other arm is never taken. -/
def GoValue.assertMapStringAny : GoValue → List (String × GoValue)
  | .mapStringAny entries => entries
  | _ => []

/-! ## Errors, handles and the call context -/

/-- A non-nil Go `error`; `connectivity` is the class the driver assigns to it. A Go value
of type `error` is an `Option Error`, `none` being nil. -/
structure Error where
  message : String
  connectivity : Bool
  deriving DecidableEq, Repr

/-- The driver function `neo4j.IsConnectivityError`; it is false on the nil error. -/
def IsConnectivityError : Option Error → Bool
  | some err => err.connectivity
  | none => false

/-- A `neo4j.DriverWithContext` value created by the driver factory. -/
structure DriverWithContext where
  id : Nat
  deriving DecidableEq, Repr

/-- A `neo4j.SessionWithContext` handle. -/
structure SessionWithContext where
  id : Nat
  deriving DecidableEq, Repr

/-- A non-nil `neo4j.ExplicitTransaction` handle. -/
structure ExplicitTransaction where
  id : Nat
  deriving DecidableEq, Repr

/-- A non-nil `neo4j.ResultWithContext` cursor; the interface value is an `Option` of it. -/
structure ResultWithContext where
  id : Nat
  deriving DecidableEq, Repr

/-- Keys of the value bag of a `context.Context`: the package marker
`transaction = neo4jTransaction{}` and the keys of other packages. -/
inductive ContextKey where
  | neo4jTransaction
  | other (name : String)
  deriving DecidableEq, Repr

/-- Values stored in a `context.Context`. -/
inductive ContextValue where
  | explicitTransaction (tx : ExplicitTransaction)
  | other (tag : Nat)
  deriving DecidableEq, Repr

/-- A `context.Context`, as the chain of key/value pairs added by `context.WithValue`,
innermost first. Deadlines and cancellation are not modelled. -/
abbrev Context := List (ContextKey × ContextValue)

/-- The package variable `transaction` (line 28). -/
def transaction : ContextKey := .neo4jTransaction

/-- The method `ctx.Value(key)`: the innermost value stored under the key, if any. -/
def Context.Value : Context → ContextKey → Option ContextValue
  | [], _ => none
  | (k, v) :: rest, key => if k = key then some v else Context.Value rest key

/-- The function `context.WithValue(ctx, key, val)`. -/
def Context.WithValue (ctx : Context) (key : ContextKey) (val : ContextValue) : Context :=
  (key, val) :: ctx

/-- The statement `tx, _ := ctx.Value(transaction).(neo4j.ExplicitTransaction)`
(lines 111 and 206): `none` is the nil transaction. -/
def ambientTransaction (ctx : Context) : Option ExplicitTransaction :=
  match ctx.Value transaction with
  | some (.explicitTransaction tx) => some tx
  | _ => none

/-! ## The external collaborators -/

/-- Everything the source calls outside the package, as transformers of a state `S` of the
outside world: the mutex `mut`, the process environment, logging, the driver stored in the
shared `*driver` slot, the driver factory, sessions and transactions. The context argument
of the driver methods is dropped. -/
structure External (S : Type) where
  /-- The call `mut.Lock()`. -/
  Lock : S → S
  /-- The call `mut.Unlock()`. -/
  Unlock : S → S
  /-- The call `os.Getenv(name)`. -/
  Getenv : String → S → String
  /-- The calls `log.Println`, `log.Printf`, `fmt.Println` and `fmt.Printf`, with the text
  and the error printed, if any. -/
  Print : String → Option Error → S → S
  /-- The call `(*driver).VerifyConnectivity` on the shared slot. -/
  VerifyConnectivity : S → Option Error × S
  /-- The call `(*driver).Close` on the shared slot. -/
  Close : S → Option Error × S
  /-- The call `driverFactory.NewDriverWithContext(uri, auth, config)`. -/
  NewDriverWithContext : String → String → String → S → Except Error DriverWithContext × S
  /-- The call `driver.VerifyConnectivity` on a driver just created. -/
  VerifyConnectivityOf : DriverWithContext → S → Option Error × S
  /-- The assignment `*driver = *neo4jDriver` to the shared slot. -/
  Store : DriverWithContext → S → S
  /-- The call `(*driver).NewSession(ctx, config)`. -/
  NewSession : S → SessionWithContext × S
  /-- The call `session.BeginTransaction(ctx)`. -/
  BeginTransaction : SessionWithContext → S → Except Error ExplicitTransaction × S
  /-- The call `session.Run(ctx, cypher, params)`. -/
  SessionRun : SessionWithContext → String → List (String × GoValue) → S →
    (Option ResultWithContext × Option Error) × S
  /-- The call `session.Close(ctx)`. -/
  SessionClose : SessionWithContext → S → Option Error × S
  /-- The call `tx.Run(ctx, cypher, params)`. -/
  TxRun : ExplicitTransaction → String → List (String × GoValue) → S →
    (Option ResultWithContext × Option Error) × S
  /-- The call `tx.Commit(ctx)`. -/
  Commit : ExplicitTransaction → S → Option Error × S
  /-- The call `tx.Rollback(ctx)`. -/
  Rollback : ExplicitTransaction → S → Option Error × S
  /-- The call `tx.Close(ctx)`. -/
  TxClose : ExplicitTransaction → S → Option Error × S

/-! ## The package functions -/

/-- The struct `TransactionOptions` (lines 20-22). -/
structure TransactionOptions where
  RequiresNew : Bool
  deriving DecidableEq, Repr

/-- An option function `func(opt TransactionOptions)`. Go hands it a copy of the struct and
it returns nothing; the function here gives the value its own copy has when it returns. -/
abbrev OptionFunc := TransactionOptions → TransactionOptions

/-- The type `TransactionRunner[T]` (line 24): a pair `(*T, error)` and the new state. -/
abbrev TransactionRunner (S T : Type) := Context → S → (Option T × Option Error) × S

/-- The package variable `defaultOptions` (lines 96-98). Nothing in the package assigns
to it. -/
def defaultOptions : TransactionOptions := { RequiresNew := false }

/-- The function `applyOptions` (lines 100-104). Its parameter `defaultOptions` is a copy of
the argument, and each `apply(defaultOptions)` passes a further copy, which is lost when
`apply` returns. The value returned here is the parameter after the loop; the Go function
returns nothing, so the caller never sees it. -/
def applyOptions (defaultOptions : TransactionOptions) : List OptionFunc → TransactionOptions
  | [] => defaultOptions
  | apply :: rest =>
      let _copy := apply defaultOptions
      applyOptions defaultOptions rest

/-- The function `NewDriver` (lines 65-87). -/
def NewDriver {S : Type} (x : External S) (uri username password : String) (s : S) :
    Except Error DriverWithContext × S :=
  match x.NewDriverWithContext uri username password s with
  | (.error err, s) => (.error err, s)
  | (.ok driver, s) =>
    match x.VerifyConnectivityOf driver s with
    | (some connectionErr, s) => (.error connectionErr, s)
    | (none, s) =>
      let s := x.Print "Pinged your deployment. You successfully connected to Neo4j!" none s
      (.ok driver, s)

/-- The function `restartDriver` (lines 32-63); `defer mut.Unlock()` runs on every return. -/
def restartDriver {S : Type} (x : External S) (s : S) : Option Error × S :=
  let s := x.Lock s
  match x.VerifyConnectivity s with
  | (none, s) => (none, x.Unlock s)
  | (some _, s) =>
    match x.Close s with
    | (some err, s) => (some err, x.Unlock s)
    | (none, s) =>
      let neo4jUri := x.Getenv "NEO4J_URI" s
      let neo4jUsername := x.Getenv "NEO4J_USERNAME" s
      let neo4jPassword := x.Getenv "NEO4J_PASSWORD" s
      match NewDriver x neo4jUri neo4jUsername neo4jPassword s with
      | (.error neo4jErr, s) =>
        let s := x.Print "error while connecting to neo4j" (some neo4jErr) s
        (some neo4jErr, x.Unlock s)
      | (.ok neo4jDriver, s) =>
        let s := x.Store neo4jDriver s
        (none, x.Unlock s)

/-- The function `WithNewSession` (lines 89-94). -/
def WithNewSession {S : Type} (x : External S) (s : S) : SessionWithContext × S :=
  x.NewSession s

/-- The function `handleSessionError` (lines 242-266). -/
def handleSessionError {S T : Type} (x : External S)
    (doJob : S → (Option T × Option Error) × S) (s : S) : (Option T × Option Error) × S :=
  match doJob s with
  | ((result, err), s) =>
    let s := x.Print "error:" err s
    if err.isSome && IsConnectivityError err then
      match restartDriver x s with
      | (some err, s) => ((none, some err), s)
      | (none, s) =>
        match doJob s with
        | ((_, some err), s) => ((none, some err), s)
        | ((result, none), s) => ((result, none), s)
    else
      ((result, err), s)

/-- The deferred function of `execute` (lines 126-138): close the transaction, then the
session, logging a close error. -/
def executeDeferred {S : Type} (x : External S) (tx : ExplicitTransaction)
    (session : SessionWithContext) (s : S) : S :=
  match x.TxClose tx s with
  | (err, s) =>
    let s := match err with
      | some err => x.Print "" (some err) s
      | none => s
    match x.SessionClose session s with
    | (err, s) =>
      match err with
      | some err => x.Print "" (some err) s
      | none => s

/-- The closure `execute` of `WithTransaction` (lines 108-159). It reads the package
variable `defaultOptions`, not what `applyOptions` did to its copies. -/
def execute {S T : Type} (x : External S) (ctx : Context)
    (runTransaction : TransactionRunner S T) (opts : List OptionFunc) (s : S) :
    (Option T × Option Error) × S :=
  let _applied := applyOptions defaultOptions opts
  let tx := ambientTransaction ctx
  match tx, !defaultOptions.RequiresNew with
  | some tx, true =>
    let ctx := ctx.WithValue transaction (.explicitTransaction tx)
    runTransaction ctx s
  | _, _ =>
    match WithNewSession x s with
    | (session, s) =>
      match x.BeginTransaction session s with
      | (.error beginTxErr, s) => ((none, some beginTxErr), s)
      | (.ok tx, s) =>
        let ctx := ctx.WithValue transaction (.explicitTransaction tx)
        match runTransaction ctx s with
        | ((_, some executionErr), s) =>
          match x.Rollback tx s with
          | (some rollbackErr, s) => ((none, some rollbackErr), executeDeferred x tx session s)
          | (none, s) => ((none, some executionErr), executeDeferred x tx session s)
        | ((result, none), s) =>
          match x.Commit tx s with
          | (some commitErr, s) => ((none, some commitErr), executeDeferred x tx session s)
          | (none, s) => ((result, none), executeDeferred x tx session s)

/-- The function returned by `WithTransaction` (lines 161-165). -/
def WithTransaction {S T : Type} (x : External S) (ctx : Context)
    (runTransaction : TransactionRunner S T) (opts : List OptionFunc) (s : S) :
    (Option T × Option Error) × S :=
  handleSessionError x (fun s => execute x ctx runTransaction opts s) s

/-- The function returned by `StartQueryExecution` (lines 201-226): the disposer, the
cursor and the error. -/
def StartQueryExecution {S : Type} (x : External S) (ctx : Context) (cypher : String)
    (params : List (String × GoValue)) (s : S) :
    ((S → S) × Option ResultWithContext × Option Error) × S :=
  let params := (handleParams (.mapStringAny params)).assertMapStringAny
  match ambientTransaction ctx with
  | some tx =>
    match x.TxRun tx cypher params s with
    | ((result, err), s) => ((fun s => s, result, err), s)
  | none =>
    match WithNewSession x s with
    | (newSession, s) =>
      match x.SessionRun newSession cypher params s with
      | ((result, err), s) =>
        let dispose := fun s =>
          match x.SessionClose newSession s with
          | (some err, s) => x.Print "" (some err) s
          | (none, s) => s
        ((dispose, result, err), s)

/-- How a Go call ends: with its return values, or with the run-time panic of
dereferencing a nil pointer. -/
inductive Outcome (α : Type) where
  | returned (values : α)
  | nilPointerDereference

/-- The function `ExecuteQuery` (lines 228-240). The job returns `&result`, a pointer that
is never nil; `*rs` dereferences whatever pointer `handleSessionError` hands back. -/
def ExecuteQuery {S : Type} (x : External S) (ctx : Context) (query : String)
    (params : List (String × GoValue)) (s : S) :
    Outcome (Option ResultWithContext × Option Error) × S :=
  match handleSessionError x (fun s =>
      match StartQueryExecution x ctx query params s with
      | ((dispose, result, err), s) => ((some result, err), dispose s)) s with
  | ((some rs, err), s) => (.returned (rs, err), s)
  | ((none, _), s) => (.nilPointerDereference, s)

/-! ## Observing the calls -/

/-- A call on an external collaborator or on a callback handed to the package. -/
inductive Call where
  | Lock
  | Unlock
  | VerifyConnectivity
  | Close
  | NewDriverWithContext (uri username password : String)
  | VerifyConnectivityOf (driver : DriverWithContext)
  | Store (driver : DriverWithContext)
  | NewSession (session : SessionWithContext)
  | BeginTransaction (session : SessionWithContext)
  | SessionRun (session : SessionWithContext) (cypher : String) (params : List (String × GoValue))
  | SessionClose (session : SessionWithContext)
  | TxRun (tx : ExplicitTransaction) (cypher : String) (params : List (String × GoValue))
  | Commit (tx : ExplicitTransaction)
  | Rollback (tx : ExplicitTransaction)
  | TxClose (tx : ExplicitTransaction)
  /-- One execution of the job given to `handleSessionError`. -/
  | doJob
  /-- One execution of the unit of work, with the context it received. -/
  | runTransaction (ctx : Context)

/-- The call is `mut.Lock()`; `restartDriver` makes it once, first thing, and nothing else
makes it. -/
def Call.isLock : Call → Bool
  | .Lock => true
  | _ => false

/-- The call is an execution of the job. -/
def Call.isDoJob : Call → Bool
  | .doJob => true
  | _ => false

/-- The call opens a session. -/
def Call.isNewSession : Call → Bool
  | .NewSession _ => true
  | _ => false

/-- The call closes a session. -/
def Call.isSessionClose : Call → Bool
  | .SessionClose _ => true
  | _ => false

/-- The call begins a transaction. -/
def Call.isBeginTransaction : Call → Bool
  | .BeginTransaction _ => true
  | _ => false

/-- The call closes a transaction. -/
def Call.isTxClose : Call → Bool
  | .TxClose _ => true
  | _ => false

/-- The call commits a transaction. -/
def Call.isCommit : Call → Bool
  | .Commit _ => true
  | _ => false

/-- The call rolls a transaction back. -/
def Call.isRollback : Call → Bool
  | .Rollback _ => true
  | _ => false

/-- The call is an execution of the unit of work. -/
def Call.isRunTransaction : Call → Bool
  | .runTransaction _ => true
  | _ => false

/-- The call is one of those `restartDriver` and `NewDriver` make: on the mutex, on the
driver in the shared slot, or on the driver factory. None of them touches a session or a
transaction. -/
def Call.isReconnect : Call → Bool
  | .Lock => true
  | .Unlock => true
  | .VerifyConnectivity => true
  | .Close => true
  | .NewDriverWithContext _ _ _ => true
  | .VerifyConnectivityOf _ => true
  | .Store _ => true
  | _ => false

/-- A state of the outside world together with the calls made so far, oldest first. -/
structure Spy (σ : Type) where
  env : σ
  calls : List Call

/-- Add a call to the record and move the outside world to its next state. -/
def Spy.record {σ : Type} (w : Spy σ) (c : Call) (env : σ) : Spy σ :=
  { env := env, calls := w.calls ++ [c] }

/-- The collaborators `x`, recording every call on the mutex, the driver, the sessions and
the transactions. Their behaviour is that of `x`; reads of the process environment and
printing are passed on without a record. -/
def spy {σ : Type} (x : External σ) : External (Spy σ) where
  Lock w := w.record .Lock (x.Lock w.env)
  Unlock w := w.record .Unlock (x.Unlock w.env)
  Getenv name w := x.Getenv name w.env
  Print text err w := { w with env := x.Print text err w.env }
  VerifyConnectivity w :=
    ((x.VerifyConnectivity w.env).1, w.record .VerifyConnectivity (x.VerifyConnectivity w.env).2)
  Close w := ((x.Close w.env).1, w.record .Close (x.Close w.env).2)
  NewDriverWithContext uri username password w :=
    ((x.NewDriverWithContext uri username password w.env).1,
      w.record (.NewDriverWithContext uri username password)
        (x.NewDriverWithContext uri username password w.env).2)
  VerifyConnectivityOf d w :=
    ((x.VerifyConnectivityOf d w.env).1,
      w.record (.VerifyConnectivityOf d) (x.VerifyConnectivityOf d w.env).2)
  Store d w := w.record (.Store d) (x.Store d w.env)
  NewSession w :=
    ((x.NewSession w.env).1, w.record (.NewSession (x.NewSession w.env).1) (x.NewSession w.env).2)
  BeginTransaction session w :=
    ((x.BeginTransaction session w.env).1,
      w.record (.BeginTransaction session) (x.BeginTransaction session w.env).2)
  SessionRun session cypher params w :=
    ((x.SessionRun session cypher params w.env).1,
      w.record (.SessionRun session cypher params) (x.SessionRun session cypher params w.env).2)
  SessionClose session w :=
    ((x.SessionClose session w.env).1,
      w.record (.SessionClose session) (x.SessionClose session w.env).2)
  TxRun tx cypher params w :=
    ((x.TxRun tx cypher params w.env).1,
      w.record (.TxRun tx cypher params) (x.TxRun tx cypher params w.env).2)
  Commit tx w := ((x.Commit tx w.env).1, w.record (.Commit tx) (x.Commit tx w.env).2)
  Rollback tx w := ((x.Rollback tx w.env).1, w.record (.Rollback tx) (x.Rollback tx w.env).2)
  TxClose tx w := ((x.TxClose tx w.env).1, w.record (.TxClose tx) (x.TxClose tx w.env).2)

/-- The calls recorded in `after` since the record `before`. -/
def callsSince {σ : Type} (before after : Spy σ) : List Call :=
  after.calls.drop before.calls.length

/-- A job acting on the outside world, with each execution recorded. -/
def spyJob {σ R : Type} (job : σ → R × σ) : Spy σ → R × Spy σ :=
  fun w => ((job w.env).1, w.record .doJob (job w.env).2)

/-- A unit of work acting on the outside world, with each execution recorded. -/
def spyRunner {σ R : Type} (run : Context → σ → R × σ) : Context → Spy σ → R × Spy σ :=
  fun ctx w => ((run ctx w.env).1, w.record (.runTransaction ctx) (run ctx w.env).2)

/-! ## A scripted outside world -/

/-- The outcome of each kind of external call in a scripted run. -/
structure Script where
  verifyErr : Option Error := none
  closeErr : Option Error := none
  newDriverErr : Option Error := none
  beginErr : Option Error := none
  runErr : Option Error := none
  commitErr : Option Error := none
  rollbackErr : Option Error := none
  txCloseErr : Option Error := none
  sessionCloseErr : Option Error := none

/-- Collaborators that follow a script. The state is the next unused handle number. -/
def scripted (sc : Script) : External Nat where
  Lock n := n
  Unlock n := n
  Getenv _ _ := ""
  Print _ _ n := n
  VerifyConnectivity n := (sc.verifyErr, n)
  Close n := (sc.closeErr, n)
  NewDriverWithContext _ _ _ n :=
    match sc.newDriverErr with
    | some err => (.error err, n)
    | none => (.ok { id := n }, n + 1)
  VerifyConnectivityOf _ n := (none, n)
  Store _ n := n
  NewSession n := ({ id := n }, n + 1)
  BeginTransaction _ n :=
    match sc.beginErr with
    | some err => (.error err, n)
    | none => (.ok { id := n }, n + 1)
  SessionRun _ _ _ n :=
    match sc.runErr with
    | some err => ((none, some err), n)
    | none => ((some { id := n }, none), n + 1)
  SessionClose _ n := (sc.sessionCloseErr, n)
  TxRun _ _ _ n :=
    match sc.runErr with
    | some err => ((none, some err), n)
    | none => ((some { id := n }, none), n + 1)
  Commit _ n := (sc.commitErr, n)
  Rollback _ n := (sc.rollbackErr, n)
  TxClose _ n := (sc.txCloseErr, n)

/-- An option function that sets `RequiresNew` on the struct it receives:
`func(opt TransactionOptions) { opt.RequiresNew = true }`. -/
def requiresNew : OptionFunc := fun opt => { opt with RequiresNew := true }

/-- A connectivity-class error. -/
def connectionLost : Error := { message := "connection lost", connectivity := true }

/-- An error of another class. -/
def queryError : Error := { message := "invalid query", connectivity := false }

/-- A context that carries the open transaction number 5. -/
def ambientCtx : Context :=
  [(ContextKey.other "request-id", .other 1), (transaction, .explicitTransaction { id := 5 })]

/-- A unit of work that fails with a non-connectivity error and produces no result. -/
def failingWork : TransactionRunner Nat Nat := fun _ n => ((none, some queryError), n)

/-- A unit of work that fails with a connectivity-class error on every execution and hands
back the result 7 with it. -/
def droppedWork : TransactionRunner Nat Nat := fun _ n => ((some 7, some connectionLost), n)

/-- A job that fails with a connectivity-class error on every execution, and still hands
back a result, as the job of `ExecuteQuery` does. -/
def unreachableJob : Nat → (Option Nat × Option Error) × Nat :=
  fun n => ((some 42, some connectionLost), n)

/-- A script in which queries fail with a connectivity-class error and the reconnect fails:
the connection cannot be verified and the old driver cannot be closed. -/
def deadDriver : Script :=
  { runErr := some connectionLost, verifyErr := some connectionLost,
    closeErr := some queryError }

/-- A script in which queries fail with a connectivity-class error while the reconnect
succeeds. -/
def flakyQueries : Script := { runErr := some connectionLost }

/-- An empty record over the scripted world. -/
def freshSpy : Spy Nat := { env := 0, calls := [] }

/-! ## What the flattener is required to produce -/

mutual
/-- Values built from graph nodes, mappings, generic sequences (`[]any`), local date-time
values and leaves (nil, times, scalars). A `[]map[string]any` is not a generic sequence. -/
def isGraphValue : GoValue → Bool
  | .node _ _ _ props => isGraphValueEntries props
  | .mapStringAny entries => isGraphValueEntries entries
  | .sliceAny elems => isGraphValueElems elems
  | .localDateTime _ => true
  | .sliceMapStringAny _ => false
  | .nil => true
  | .timePtr _ => true
  | .time _ => true
  | .scalar _ => true
/-- Every value of a mapping is a graph value. -/
def isGraphValueEntries : List (String × GoValue) → Bool
  | [] => true
  | (_, v) :: rest => isGraphValue v && isGraphValueEntries rest
/-- Every element of a sequence is a graph value. -/
def isGraphValueElems : List GoValue → Bool
  | [] => true
  | v :: rest => isGraphValue v && isGraphValueElems rest
end

mutual
/-- No graph node and no local date-time value occurs at any depth reachable through
mappings and sequences (of either slice type). -/
def graphFree : GoValue → Bool
  | .node _ _ _ _ => false
  | .localDateTime _ => false
  | .mapStringAny entries => graphFreeEntries entries
  | .sliceAny elems => graphFreeElems elems
  | .sliceMapStringAny maps => graphFreeMaps maps
  | .nil => true
  | .timePtr _ => true
  | .time _ => true
  | .scalar _ => true
/-- All values of a mapping are free of graph-native values. -/
def graphFreeEntries : List (String × GoValue) → Bool
  | [] => true
  | (_, v) :: rest => graphFree v && graphFreeEntries rest
/-- All elements of a sequence are free of graph-native values. -/
def graphFreeElems : List GoValue → Bool
  | [] => true
  | v :: rest => graphFree v && graphFreeElems rest
/-- All mappings of a sequence of mappings are free of graph-native values. -/
def graphFreeMaps : List (List (String × GoValue)) → Bool
  | [] => true
  | m :: rest => graphFreeEntries m && graphFreeMaps rest
end

mutual
/-- The flattening relation in the words of the specification: a node becomes a mapping of
its flattened properties, a mapping a mapping of flattened values under the same keys, a
local date-time value a calendar-time value, a sequence a sequence of flattened elements,
and every other value stays as it is. -/
inductive Flattened : GoValue → GoValue → Prop
  | node {i : Int} {e : String} {l : List String} {props m : List (String × GoValue)} :
      FlattenedEntries props m → Flattened (.node i e l props) (.mapStringAny m)
  | mapping {entries m : List (String × GoValue)} :
      FlattenedEntries entries m → Flattened (.mapStringAny entries) (.mapStringAny m)
  | localDateTime (t : LocalDateTime) : Flattened (.localDateTime t) (.time t.Time)
  | sequence {xs ys : List GoValue} :
      FlattenedElems xs ys → Flattened (.sliceAny xs) (.sliceAny ys)
  | nil : Flattened .nil .nil
  | timePtr (p : Option Time) : Flattened (.timePtr p) (.timePtr p)
  | time (t : Time) : Flattened (.time t) (.time t)
  | scalar (s : Scalar) : Flattened (.scalar s) (.scalar s)
  | sliceMapStringAny (ms : List (List (String × GoValue))) :
      Flattened (.sliceMapStringAny ms) (.sliceMapStringAny ms)
/-- Entry by entry: the same key, in the same position, with a flattened value. -/
inductive FlattenedEntries : List (String × GoValue) → List (String × GoValue) → Prop
  | nil : FlattenedEntries [] []
  | cons {k : String} {v r : GoValue} {rest rest' : List (String × GoValue)} :
      Flattened v r → FlattenedEntries rest rest' →
      FlattenedEntries ((k, v) :: rest) ((k, r) :: rest')
/-- Element by element: the same position, with a flattened value. -/
inductive FlattenedElems : List GoValue → List GoValue → Prop
  | nil : FlattenedElems [] []
  | cons {v r : GoValue} {rest rest' : List GoValue} :
      Flattened v r → FlattenedElems rest rest' → FlattenedElems (v :: rest) (r :: rest')
end

/-- The value used to exercise `mapField`: a node holding a name, a local date-time value
and a sequence with a nested node. -/
def sampleNode : GoValue :=
  .node 7 "n7" ["Person"]
    [("name", .scalar (.str "Alice")), ("age", .scalar (.int 30)),
     ("born", .localDateTime ⟨⟨86400⟩⟩),
     ("friends", .sliceAny [.node 8 "n8" [] [("name", .scalar (.str "Bob"))], .nil])]

/-! ## Properties of the value functions -/

/-- Normalising a mapping yields a mapping, so the type assertion
`handleParams(params).(map[string]any)` of `StartQueryExecution` cannot fail. -/
theorem handleParams_mapStringAny (entries : List (String × GoValue)) :
    handleParams (.mapStringAny entries) = .mapStringAny (handleParamsEntries entries) := by
  simp [handleParams]

mutual
theorem handleParams_twice : ∀ v : GoValue, handleParams (handleParams v) = handleParams v
  | .mapStringAny entries => by
      simp [handleParams, handleParamsEntries_twice entries]
  | .timePtr (some t) => by simp [handleParams]
  | .timePtr none => by simp [handleParams]
  | .sliceMapStringAny maps => by simp [handleParams]
  | .nil => by simp [handleParams]
  | .sliceAny xs => by simp [handleParams]
  | .time t => by simp [handleParams]
  | .node i e l p => by simp [handleParams]
  | .localDateTime t => by simp [handleParams]
  | .scalar s => by simp [handleParams]
theorem handleParamsEntries_twice : ∀ entries : List (String × GoValue),
    handleParamsEntries (handleParamsEntries entries) = handleParamsEntries entries
  | [] => by simp [handleParamsEntries]
  | (k, v) :: rest => by
      simp [handleParamsEntries, handleParams_twice v, handleParamsEntries_twice rest]
end

theorem handleParamsEntries_keys (entries : List (String × GoValue)) :
    (handleParamsEntries entries).map Prod.fst = entries.map Prod.fst := by
  induction entries with
  | nil => simp [handleParamsEntries]
  | cons kv rest ih => obtain ⟨k, v⟩ := kv; simp [handleParamsEntries, ih]

mutual
theorem mapField_flattened : ∀ v : GoValue, Flattened v (mapField v)
  | .node i e l props => by
      simp only [mapField]; exact .node (mapFieldEntries_flattened props)
  | .mapStringAny entries => by
      simp only [mapField]; exact .mapping (mapFieldEntries_flattened entries)
  | .localDateTime t => by simp only [mapField]; exact .localDateTime t
  | .sliceAny xs => by simp only [mapField]; exact .sequence (mapFieldElems_flattened xs)
  | .nil => by simp only [mapField]; exact .nil
  | .timePtr p => by simp only [mapField]; exact .timePtr p
  | .sliceMapStringAny ms => by simp only [mapField]; exact .sliceMapStringAny ms
  | .time t => by simp only [mapField]; exact .time t
  | .scalar s => by simp only [mapField]; exact .scalar s
theorem mapFieldEntries_flattened : ∀ entries : List (String × GoValue),
    FlattenedEntries entries (mapFieldEntries entries)
  | [] => by simp only [mapFieldEntries]; exact .nil
  | (k, v) :: rest => by
      simp only [mapFieldEntries]
      exact .cons (mapField_flattened v) (mapFieldEntries_flattened rest)
theorem mapFieldElems_flattened : ∀ xs : List GoValue, FlattenedElems xs (mapFieldElems xs)
  | [] => by simp only [mapFieldElems]; exact .nil
  | v :: rest => by
      simp only [mapFieldElems]
      exact .cons (mapField_flattened v) (mapFieldElems_flattened rest)
end

mutual
theorem mapField_graphFree : ∀ v : GoValue, isGraphValue v = true → graphFree (mapField v) = true
  | .node i e l props => by
      intro h; simp only [isGraphValue] at h
      simp only [mapField, graphFree]; exact mapFieldEntries_graphFree props h
  | .mapStringAny entries => by
      intro h; simp only [isGraphValue] at h
      simp only [mapField, graphFree]; exact mapFieldEntries_graphFree entries h
  | .localDateTime t => by intro _; simp [mapField, graphFree]
  | .sliceAny xs => by
      intro h; simp only [isGraphValue] at h
      simp only [mapField, graphFree]; exact mapFieldElems_graphFree xs h
  | .nil => by intro _; simp [mapField, graphFree]
  | .timePtr p => by intro _; simp [mapField, graphFree]
  | .sliceMapStringAny ms => by intro h; simp [isGraphValue] at h
  | .time t => by intro _; simp [mapField, graphFree]
  | .scalar s => by intro _; simp [mapField, graphFree]
theorem mapFieldEntries_graphFree : ∀ entries : List (String × GoValue),
    isGraphValueEntries entries = true → graphFreeEntries (mapFieldEntries entries) = true
  | [] => by intro _; simp [mapFieldEntries, graphFreeEntries]
  | (k, v) :: rest => by
      intro h
      simp only [isGraphValueEntries, Bool.and_eq_true] at h
      simp only [mapFieldEntries, graphFreeEntries, Bool.and_eq_true]
      exact ⟨mapField_graphFree v h.1, mapFieldEntries_graphFree rest h.2⟩
theorem mapFieldElems_graphFree : ∀ xs : List GoValue,
    isGraphValueElems xs = true → graphFreeElems (mapFieldElems xs) = true
  | [] => by intro _; simp [mapFieldElems, graphFreeElems]
  | v :: rest => by
      intro h
      simp only [isGraphValueElems, Bool.and_eq_true] at h
      simp only [mapFieldElems, graphFreeElems, Bool.and_eq_true]
      exact ⟨mapField_graphFree v h.1, mapFieldElems_graphFree rest h.2⟩
end

theorem FlattenedEntries.keys_eq {entries m : List (String × GoValue)}
    (h : FlattenedEntries entries m) : m.map Prod.fst = entries.map Prod.fst := by
  induction entries generalizing m with
  | nil => cases h; rfl
  | cons kv rest ih =>
      cases h with
      | cons hv hrest => simp [ih hrest]

theorem FlattenedElems.length_eq {xs ys : List GoValue}
    (h : FlattenedElems xs ys) : ys.length = xs.length := by
  induction xs generalizing ys with
  | nil => cases h; rfl
  | cons v rest ih =>
      cases h with
      | cons hv hrest => simp [ih hrest]

/-- Claim C8. The value normaliser `handleParams` is idempotent on every value: a mapping,
a sequence of mappings, a timestamp reference (the nil reference included) or any value
that passes through. -/
theorem handleParams_idempotent (x : GoValue) :
    handleParams (handleParams x) = handleParams x :=
  handleParams_twice x

/-- Claim C9. For a value built from graph nodes, mappings, generic sequences, local
date-time values and leaves, `mapField` returns the flattening of the value (nodes become
mappings of their flattened properties under the same keys, mappings keep their keys,
sequences keep length and order, leaves stay as they are), and the result holds no graph
node and no local date-time value at any depth; scalars are returned unchanged. -/
theorem mapField_flattens (v : GoValue) (hv : isGraphValue v = true) :
    Flattened v (mapField v) ∧ graphFree (mapField v) = true ∧
    (∀ i e l props, v = .node i e l props →
      ∃ m, mapField v = .mapStringAny m ∧ m.map Prod.fst = props.map Prod.fst) ∧
    (∀ entries, v = .mapStringAny entries →
      ∃ m, mapField v = .mapStringAny m ∧ m.map Prod.fst = entries.map Prod.fst) ∧
    (∀ xs, v = .sliceAny xs → ∃ ys, mapField v = .sliceAny ys ∧ ys.length = xs.length) ∧
    (∀ s, v = .scalar s → mapField v = .scalar s) := by
  refine ⟨mapField_flattened v, mapField_graphFree v hv, ?_, ?_, ?_, ?_⟩
  · rintro i e l props rfl
    exact ⟨_, by simp only [mapField], (mapFieldEntries_flattened props).keys_eq⟩
  · rintro entries rfl
    exact ⟨_, by simp only [mapField], (mapFieldEntries_flattened entries).keys_eq⟩
  · rintro xs rfl
    exact ⟨_, by simp only [mapField], (mapFieldElems_flattened xs).length_eq⟩
  · rintro s rfl
    simp only [mapField]

theorem mapField_flattens_witness :
    isGraphValue sampleNode = true ∧
    mapField sampleNode = .mapStringAny
      [("name", .scalar (.str "Alice")), ("age", .scalar (.int 30)),
       ("born", .time ⟨86400⟩),
       ("friends", .sliceAny [.mapStringAny [("name", .scalar (.str "Bob"))], .nil])] ∧
    Flattened sampleNode (mapField sampleNode) ∧ graphFree (mapField sampleNode) = true :=
  ⟨rfl, rfl, (mapField_flattens sampleNode rfl).1, (mapField_flattens sampleNode rfl).2.1⟩

/-! ## Properties of the transaction manager -/

theorem isConnectivityError_isSome (err : Option Error) (h : IsConnectivityError err = true) :
    err.isSome = true := by
  cases err with
  | none => simp [IsConnectivityError] at h
  | some e => rfl

theorem handleSessionError_no_retry {S T : Type} (x : External S)
    (doJob : S → (Option T × Option Error) × S) (s s1 : S) (result : Option T)
    (err : Option Error)
    (hjob : doJob s = ((result, err), s1)) (hclass : IsConnectivityError err = false) :
    handleSessionError x doJob s = ((result, err), x.Print "error:" err s1) := by
  simp [handleSessionError, hjob, hclass]

theorem applyOptions_eq (d : TransactionOptions) (opts : List OptionFunc) :
    applyOptions d opts = d := by
  induction opts with
  | nil => rfl
  | cons apply rest ih => simpa [applyOptions] using ih

theorem ambientTransaction_withValue (ctx : Context) (tx : ExplicitTransaction) :
    ambientTransaction (ctx.WithValue transaction (.explicitTransaction tx)) = some tx := by
  simp [ambientTransaction, Context.WithValue, Context.Value]

theorem execute_of_ambient {S T : Type} (x : External S) (ctx : Context)
    (tx : ExplicitTransaction) (run : TransactionRunner S T) (opts : List OptionFunc) (s : S)
    (h : ambientTransaction ctx = some tx) :
    execute x ctx run opts s = run (ctx.WithValue transaction (.explicitTransaction tx)) s := by
  simp [execute, h, defaultOptions]

/-- Claim C1, the code at the failing input. In a context that carries the open transaction
5, a call with the option function that sets `RequiresNew` leaves the options as they
were: the call opens no session and begins no transaction, and the unit of work runs with
the ambient transaction 5 in its context. -/
theorem requiresNew_has_no_effect :
    (requiresNew defaultOptions).RequiresNew = true ∧
    applyOptions defaultOptions [requiresNew] = defaultOptions ∧
    ambientTransaction ambientCtx = some { id := 5 } ∧
    (WithTransaction (spy (scripted {})) ambientCtx (spyRunner failingWork) [requiresNew]
        freshSpy).1 = (none, some queryError) ∧
    (WithTransaction (spy (scripted {})) ambientCtx (spyRunner failingWork) [requiresNew]
        freshSpy).2.calls =
      [.runTransaction (ambientCtx.WithValue transaction (.explicitTransaction { id := 5 }))] :=
  ⟨rfl, rfl, rfl, rfl, rfl⟩

theorem executeDeferred_calls {σ : Type} (x : External σ) (tx : ExplicitTransaction)
    (session : SessionWithContext) (w : Spy σ) :
    (executeDeferred (spy x) tx session w).calls
      = w.calls ++ [.TxClose tx, .SessionClose session] := by
  simp only [executeDeferred, spy, Spy.record]
  cases (x.TxClose tx w.env).1 <;> simp only [] <;> split <;> simp

theorem execute_begin_failed {S T : Type} (x : External S) (ctx : Context)
    (run : TransactionRunner S T) (opts : List OptionFunc) (s s1 s2 : S)
    (session : SessionWithContext) (beginTxErr : Error)
    (hctx : ambientTransaction ctx = none)
    (hsession : x.NewSession s = (session, s1))
    (hbegin : x.BeginTransaction session s1 = (.error beginTxErr, s2)) :
    execute x ctx run opts s = ((none, some beginTxErr), s2) := by
  simp only [execute, hctx, WithNewSession, hsession, hbegin]

theorem execute_work_failed {S T : Type} (x : External S) (ctx : Context)
    (run : TransactionRunner S T) (opts : List OptionFunc) (s s1 s2 s3 s4 : S)
    (session : SessionWithContext) (tx : ExplicitTransaction) (res : Option T)
    (executionErr : Error) (rollbackErr : Option Error)
    (hctx : ambientTransaction ctx = none)
    (hsession : x.NewSession s = (session, s1))
    (hbegin : x.BeginTransaction session s1 = (.ok tx, s2))
    (hrun : run (ctx.WithValue transaction (.explicitTransaction tx)) s2
      = ((res, some executionErr), s3))
    (hrollback : x.Rollback tx s3 = (rollbackErr, s4)) :
    execute x ctx run opts s
      = ((none, some (rollbackErr.getD executionErr)), executeDeferred x tx session s4) := by
  simp only [execute, hctx, WithNewSession, hsession, hbegin, hrun, hrollback]
  cases rollbackErr <;> rfl

theorem execute_work_succeeded {S T : Type} (x : External S) (ctx : Context)
    (run : TransactionRunner S T) (opts : List OptionFunc) (s s1 s2 s3 s4 : S)
    (session : SessionWithContext) (tx : ExplicitTransaction) (res : Option T)
    (commitErr : Option Error)
    (hctx : ambientTransaction ctx = none)
    (hsession : x.NewSession s = (session, s1))
    (hbegin : x.BeginTransaction session s1 = (.ok tx, s2))
    (hrun : run (ctx.WithValue transaction (.explicitTransaction tx)) s2 = ((res, none), s3))
    (hcommit : x.Commit tx s3 = (commitErr, s4)) :
    execute x ctx run opts s
      = ((if commitErr.isSome then none else res, commitErr),
          executeDeferred x tx session s4) := by
  simp only [execute, hctx, WithNewSession, hsession, hbegin, hrun, hcommit]
  cases commitErr <;> rfl

theorem execute_owned_calls {σ T : Type} (x : External σ) (ctx : Context)
    (run : TransactionRunner σ T) (opts : List OptionFunc) (w : Spy σ)
    (tx : ExplicitTransaction) (e : σ)
    (hctx : ambientTransaction ctx = none)
    (hbegin : x.BeginTransaction (x.NewSession w.env).1 (x.NewSession w.env).2 = (.ok tx, e)) :
    (execute (spy x) ctx (spyRunner run) opts w).2.calls =
      w.calls ++ [.NewSession (x.NewSession w.env).1, .BeginTransaction (x.NewSession w.env).1,
        .runTransaction (ctx.WithValue transaction (.explicitTransaction tx)),
        if (run (ctx.WithValue transaction (.explicitTransaction tx)) e).1.2 = none
          then .Commit tx else .Rollback tx,
        .TxClose tx, .SessionClose (x.NewSession w.env).1] := by
  have hs : (spy x).NewSession w = ((x.NewSession w.env).1,
      w.record (.NewSession (x.NewSession w.env).1) (x.NewSession w.env).2) := rfl
  have hb : (spy x).BeginTransaction (x.NewSession w.env).1
      (w.record (.NewSession (x.NewSession w.env).1) (x.NewSession w.env).2)
      = (.ok tx, (w.record (.NewSession (x.NewSession w.env).1) (x.NewSession w.env).2).record
          (.BeginTransaction (x.NewSession w.env).1) e) := by
    simp [spy, Spy.record, hbegin]
  rcases hr : run (ctx.WithValue transaction (.explicitTransaction tx)) e with ⟨⟨res, err⟩, e3⟩
  cases err with
  | some executionErr =>
    rw [execute_work_failed (spy x) ctx (spyRunner run) opts w _ _ _ _ _ tx res executionErr
      _ hctx hs hb (by simp [spyRunner, Spy.record, hr]; rfl) rfl]
    rw [executeDeferred_calls]
    simp [spy, Spy.record, hr]
  | none =>
    rw [execute_work_succeeded (spy x) ctx (spyRunner run) opts w _ _ _ _ _ tx res
      _ hctx hs hb (by simp [spyRunner, Spy.record, hr]; rfl) rfl]
    rw [executeDeferred_calls]
    simp [spy, Spy.record, hr]

theorem execute_pair_of_owned {S T : Type} (x : External S) (ctx : Context)
    (run : TransactionRunner S T) (opts : List OptionFunc) (s s2 : S)
    (tx : ExplicitTransaction)
    (hctx : ambientTransaction ctx = none)
    (hbegin : x.BeginTransaction (x.NewSession s).1 (x.NewSession s).2 = (.ok tx, s2)) :
    (execute x ctx run opts s).1 =
      match (run (ctx.WithValue transaction (.explicitTransaction tx)) s2).1 with
      | (_, some executionErr) =>
        (none, some (((x.Rollback tx
          (run (ctx.WithValue transaction (.explicitTransaction tx)) s2).2).1).getD executionErr))
      | (result, none) =>
        match (x.Commit tx (run (ctx.WithValue transaction (.explicitTransaction tx)) s2).2).1 with
        | some commitErr => (none, some commitErr)
        | none => (result, none) := by
  rcases hr : run (ctx.WithValue transaction (.explicitTransaction tx)) s2 with ⟨⟨res, err⟩, s3⟩
  cases err with
  | some executionErr =>
    rw [execute_work_failed x ctx run opts s _ _ _ _ _ tx res executionErr _ hctx rfl hbegin hr rfl]
  | none =>
    rw [execute_work_succeeded x ctx run opts s _ _ _ _ _ tx res _ hctx rfl hbegin hr rfl]
    cases (x.Commit tx s3).1 <;> rfl

/-- Claim C2. An execute step that owns its transaction (no ambient transaction in the
context, `BeginTransaction` succeeds with `tx`) makes exactly these calls, in this order:
open the session, begin the transaction, run the unit of work, then `Rollback` on `tx` when
the unit of work returned an error and `Commit` on `tx` when it returned none, then close
the transaction and the session. So exactly one of the two is called, once. -/
theorem execute_commit_xor_rollback {σ T : Type} (x : External σ) (ctx : Context)
    (run : TransactionRunner σ T) (opts : List OptionFunc) (w : Spy σ)
    (tx : ExplicitTransaction) (e : σ)
    (hctx : ambientTransaction ctx = none)
    (hbegin : x.BeginTransaction (x.NewSession w.env).1 (x.NewSession w.env).2 = (.ok tx, e)) :
    ((run (ctx.WithValue transaction (.explicitTransaction tx)) e).1.2 ≠ none →
      callsSince w (execute (spy x) ctx (spyRunner run) opts w).2 =
        [.NewSession (x.NewSession w.env).1, .BeginTransaction (x.NewSession w.env).1,
          .runTransaction (ctx.WithValue transaction (.explicitTransaction tx)),
          .Rollback tx, .TxClose tx, .SessionClose (x.NewSession w.env).1] ∧
      (callsSince w (execute (spy x) ctx (spyRunner run) opts w).2).countP Call.isRollback = 1 ∧
      (callsSince w (execute (spy x) ctx (spyRunner run) opts w).2).countP Call.isCommit = 0) ∧
    ((run (ctx.WithValue transaction (.explicitTransaction tx)) e).1.2 = none →
      callsSince w (execute (spy x) ctx (spyRunner run) opts w).2 =
        [.NewSession (x.NewSession w.env).1, .BeginTransaction (x.NewSession w.env).1,
          .runTransaction (ctx.WithValue transaction (.explicitTransaction tx)),
          .Commit tx, .TxClose tx, .SessionClose (x.NewSession w.env).1] ∧
      (callsSince w (execute (spy x) ctx (spyRunner run) opts w).2).countP Call.isCommit = 1 ∧
      (callsSince w (execute (spy x) ctx (spyRunner run) opts w).2).countP Call.isRollback = 0) := by
  have h := execute_owned_calls x ctx run opts w tx e hctx hbegin
  constructor
  · intro hne
    have hc : callsSince w (execute (spy x) ctx (spyRunner run) opts w).2 =
        [.NewSession (x.NewSession w.env).1, .BeginTransaction (x.NewSession w.env).1,
          .runTransaction (ctx.WithValue transaction (.explicitTransaction tx)),
          .Rollback tx, .TxClose tx, .SessionClose (x.NewSession w.env).1] := by
      simp [callsSince, h, hne]
    refine ⟨hc, ?_, ?_⟩ <;> rw [hc] <;> rfl
  · intro hnone
    have hc : callsSince w (execute (spy x) ctx (spyRunner run) opts w).2 =
        [.NewSession (x.NewSession w.env).1, .BeginTransaction (x.NewSession w.env).1,
          .runTransaction (ctx.WithValue transaction (.explicitTransaction tx)),
          .Commit tx, .TxClose tx, .SessionClose (x.NewSession w.env).1] := by
      simp [callsSince, h, hnone]
    refine ⟨hc, ?_, ?_⟩ <;> rw [hc] <;> rfl

theorem execute_commit_xor_rollback_witness :
    ambientTransaction [] = none ∧
    (scripted {}).BeginTransaction ((scripted {}).NewSession freshSpy.env).1
      ((scripted {}).NewSession freshSpy.env).2 = (.ok { id := 1 }, 2) ∧
    callsSince freshSpy (execute (spy (scripted {})) [] (spyRunner failingWork) [] freshSpy).2 =
      [.NewSession { id := 0 }, .BeginTransaction { id := 0 },
        .runTransaction [(transaction, .explicitTransaction { id := 1 })],
        .Rollback { id := 1 }, .TxClose { id := 1 }, .SessionClose { id := 0 }] :=
  ⟨rfl, rfl,
   ((execute_commit_xor_rollback (scripted {}) [] failingWork [] freshSpy { id := 1 } 2 rfl rfl).1
      (by simp [failingWork])).1⟩

/-- Claim C4, the code at the failing input. When `BeginTransaction` fails, the execute step
has opened one session and returns the error without closing it: the deferred close is
only registered after the transaction has begun. -/
theorem session_left_open_when_begin_fails :
    (execute (spy (scripted { beginErr := some queryError })) [] (spyRunner failingWork) []
        freshSpy).1 = (none, some queryError) ∧
    (execute (spy (scripted { beginErr := some queryError })) [] (spyRunner failingWork) []
        freshSpy).2.calls = [.NewSession { id := 0 }, .BeginTransaction { id := 0 }] ∧
    (execute (spy (scripted { beginErr := some queryError })) [] (spyRunner failingWork) []
        freshSpy).2.calls.countP Call.isNewSession = 1 ∧
    (execute (spy (scripted { beginErr := some queryError })) [] (spyRunner failingWork) []
        freshSpy).2.calls.countP Call.isSessionClose = 0 :=
  ⟨rfl, rfl, rfl, rfl⟩

/-- Claim C7. For an execute step that owns its transaction and whose `BeginTransaction`
succeeds with `tx`, the returned pair is: no result and the rollback error when the unit of
work fails and `Rollback` fails; no result and the error of the unit of work when it fails
and `Rollback` succeeds; no result and the commit error when it succeeds and `Commit`
fails; its result and no error when both succeed. Replacing the close operations of the
transaction and of the session by any others leaves the returned pair as it is. -/
theorem execute_returned_pair {S T : Type} (x : External S) (ctx : Context)
    (run : TransactionRunner S T) (opts : List OptionFunc) (s s2 : S)
    (tx : ExplicitTransaction)
    (hctx : ambientTransaction ctx = none)
    (hbegin : x.BeginTransaction (x.NewSession s).1 (x.NewSession s).2 = (.ok tx, s2)) :
    (∀ (res : Option T) (executionErr : Error) (s3 : S),
      run (ctx.WithValue transaction (.explicitTransaction tx)) s2
        = ((res, some executionErr), s3) →
      (∀ rollbackErr : Error, (x.Rollback tx s3).1 = some rollbackErr →
        (execute x ctx run opts s).1 = (none, some rollbackErr)) ∧
      ((x.Rollback tx s3).1 = none →
        (execute x ctx run opts s).1 = (none, some executionErr))) ∧
    (∀ (res : Option T) (s3 : S),
      run (ctx.WithValue transaction (.explicitTransaction tx)) s2 = ((res, none), s3) →
      (∀ commitErr : Error, (x.Commit tx s3).1 = some commitErr →
        (execute x ctx run opts s).1 = (none, some commitErr)) ∧
      ((x.Commit tx s3).1 = none → (execute x ctx run opts s).1 = (res, none))) ∧
    (∀ (txClose : ExplicitTransaction → S → Option Error × S)
       (sessionClose : SessionWithContext → S → Option Error × S),
      (execute { x with TxClose := txClose, SessionClose := sessionClose } ctx run opts s).1
        = (execute x ctx run opts s).1) := by
  have h := execute_pair_of_owned x ctx run opts s s2 tx hctx hbegin
  refine ⟨?_, ?_, ?_⟩
  · intro res executionErr s3 hr
    rw [hr] at h
    constructor
    · intro rollbackErr hrb
      rw [h]; simp [hrb]
    · intro hrb
      rw [h]; simp [hrb]
  · intro res s3 hr
    rw [hr] at h
    constructor
    · intro commitErr hc
      rw [h]; simp [hc]
    · intro hc
      rw [h]; simp [hc]
  · intro txClose sessionClose
    rw [h]
    exact execute_pair_of_owned { x with TxClose := txClose, SessionClose := sessionClose }
      ctx run opts s s2 tx hctx hbegin

theorem execute_returned_pair_witness :
    ambientTransaction [] = none ∧
    (execute (scripted { rollbackErr := some connectionLost }) [] failingWork [] 0).1
      = (none, some connectionLost) ∧
    (execute (scripted {}) [] failingWork [] 0).1 = (none, some queryError) :=
  ⟨rfl,
   ((execute_returned_pair (scripted { rollbackErr := some connectionLost }) [] failingWork []
      0 2 { id := 1 } rfl rfl).1 none queryError 2 rfl).1 connectionLost rfl,
   ((execute_returned_pair (scripted {}) [] failingWork [] 0 2 { id := 1 } rfl rfl).1
      none queryError 2 rfl).2 rfl⟩

/-! ## Properties of the connectivity-retry wrapper -/

theorem handleSessionError_restart_failed {S T : Type} (x : External S)
    (doJob : S → (Option T × Option Error) × S) (s s1 s2 : S) (result : Option T)
    (err : Option Error) (restartErr : Error)
    (hjob : doJob s = ((result, err), s1)) (hclass : IsConnectivityError err = true)
    (hrestart : restartDriver x (x.Print "error:" err s1) = (some restartErr, s2)) :
    handleSessionError x doJob s = ((none, some restartErr), s2) := by
  simp [handleSessionError, hjob, hclass, isConnectivityError_isSome err hclass, hrestart]

theorem handleSessionError_retried {S T : Type} (x : External S)
    (doJob : S → (Option T × Option Error) × S) (s s1 s2 s3 : S) (result result2 : Option T)
    (err err2 : Option Error)
    (hjob : doJob s = ((result, err), s1)) (hclass : IsConnectivityError err = true)
    (hrestart : restartDriver x (x.Print "error:" err s1) = (none, s2))
    (hjob2 : doJob s2 = ((result2, err2), s3)) :
    handleSessionError x doJob s = ((if err2.isSome then none else result2, err2), s3) := by
  simp only [handleSessionError, hjob, hclass, isConnectivityError_isSome err hclass, hrestart,
    hjob2, Bool.and_self, if_true]
  cases err2 <;> rfl

theorem restartDriver_spy {σ : Type} (x : External σ) (w : Spy σ) :
    (restartDriver (spy x) w).1 = (restartDriver x w.env).1 ∧
    (restartDriver (spy x) w).2.env = (restartDriver x w.env).2 ∧
    ∃ l, (restartDriver (spy x) w).2.calls = w.calls ++ l ∧
      l.countP Call.isLock = 1 ∧ l.countP Call.isDoJob = 0 := by
  simp only [restartDriver, NewDriver, spy, Spy.record]
  rcases h1 : x.VerifyConnectivity (x.Lock w.env) with ⟨v, e1⟩
  cases v with
  | none => exact ⟨rfl, rfl, [.Lock, .VerifyConnectivity, .Unlock], by simp, rfl, rfl⟩
  | some verr =>
    simp only []
    rcases h2 : x.Close e1 with ⟨c, e2⟩
    cases c with
    | some cerr => exact ⟨rfl, rfl, [.Lock, .VerifyConnectivity, .Close, .Unlock], by simp, rfl, rfl⟩
    | none =>
      simp only []
      rcases h3 : x.NewDriverWithContext (x.Getenv "NEO4J_URI" e2) (x.Getenv "NEO4J_USERNAME" e2)
        (x.Getenv "NEO4J_PASSWORD" e2) e2 with ⟨d, e3⟩
      cases d with
      | error derr =>
        exact ⟨rfl, rfl, [.Lock, .VerifyConnectivity, .Close, .NewDriverWithContext (x.Getenv "NEO4J_URI" e2)
            (x.Getenv "NEO4J_USERNAME" e2) (x.Getenv "NEO4J_PASSWORD" e2), .Unlock],
          by simp, rfl, rfl⟩
      | ok drv =>
        simp only []
        rcases h4 : x.VerifyConnectivityOf drv e3 with ⟨v2, e4⟩
        cases v2 with
        | some verr2 =>
          exact ⟨rfl, rfl, [.Lock, .VerifyConnectivity, .Close, .NewDriverWithContext (x.Getenv "NEO4J_URI" e2)
            (x.Getenv "NEO4J_USERNAME" e2) (x.Getenv "NEO4J_PASSWORD" e2),
            .VerifyConnectivityOf drv, .Unlock], by simp, rfl, rfl⟩
        | none =>
          exact ⟨rfl, rfl, [.Lock, .VerifyConnectivity, .Close, .NewDriverWithContext (x.Getenv "NEO4J_URI" e2)
            (x.Getenv "NEO4J_USERNAME" e2) (x.Getenv "NEO4J_PASSWORD" e2),
            .VerifyConnectivityOf drv, .Store drv, .Unlock], by simp, rfl, rfl⟩

theorem handleSessionError_spy_calls {σ T : Type} (x : External σ)
    (job : σ → (Option T × Option Error) × σ) (w : Spy σ)
    (hclass : IsConnectivityError (job w.env).1.2 = true) :
    ∃ l, l.countP Call.isLock = 1 ∧ l.countP Call.isDoJob = 0 ∧
      (∀ restartErr : Error,
        (restartDriver x (x.Print "error:" (job w.env).1.2 (job w.env).2)).1 = some restartErr →
        handleSessionError (spy x) (spyJob job) w
          = ((none, some restartErr),
              { env := (restartDriver x (x.Print "error:" (job w.env).1.2 (job w.env).2)).2,
                calls := w.calls ++ Call.doJob :: l })) ∧
      ((restartDriver x (x.Print "error:" (job w.env).1.2 (job w.env).2)).1 = none →
        handleSessionError (spy x) (spyJob job) w
          = ((if (job (restartDriver x
                  (x.Print "error:" (job w.env).1.2 (job w.env).2)).2).1.2.isSome
                then none
                else (job (restartDriver x
                  (x.Print "error:" (job w.env).1.2 (job w.env).2)).2).1.1,
              (job (restartDriver x (x.Print "error:" (job w.env).1.2 (job w.env).2)).2).1.2),
              { env := (job (restartDriver x
                  (x.Print "error:" (job w.env).1.2 (job w.env).2)).2).2,
                calls := w.calls ++ Call.doJob :: (l ++ [Call.doJob]) })) := by
  obtain ⟨h1, h2, l, h3, h4, h5⟩ := restartDriver_spy x
    ((spy x).Print "error:" (job w.env).1.2 (w.record .doJob (job w.env).2))
  have hjob : spyJob job w = (((job w.env).1.1, (job w.env).1.2), w.record .doJob (job w.env).2) :=
    rfl
  have henv : ((spy x).Print "error:" (job w.env).1.2 (w.record .doJob (job w.env).2)).env
      = x.Print "error:" (job w.env).1.2 (job w.env).2 := rfl
  have hcalls : ((spy x).Print "error:" (job w.env).1.2 (w.record .doJob (job w.env).2)).calls
      = w.calls ++ [.doJob] := rfl
  rw [henv] at h1 h2
  rw [hcalls] at h3
  refine ⟨l, h4, h5, ?_, ?_⟩
  · intro restartErr hr
    rw [handleSessionError_restart_failed (spy x) (spyJob job) w _
      (restartDriver (spy x) ((spy x).Print "error:" (job w.env).1.2
        (w.record .doJob (job w.env).2))).2 _ _ restartErr hjob hclass
      (by rw [← h1] at hr; exact Prod.ext hr rfl)]
    congr 1
    rcases hw : (restartDriver (spy x) ((spy x).Print "error:" (job w.env).1.2
        (w.record .doJob (job w.env).2))).2 with ⟨env2, calls2⟩
    rw [hw] at h2 h3
    simp only at h2 h3
    simp [h2, h3]
  · intro hr
    rw [handleSessionError_retried (spy x) (spyJob job) w _
      (restartDriver (spy x) ((spy x).Print "error:" (job w.env).1.2
        (w.record .doJob (job w.env).2))).2 _ _ _ _ _ hjob hclass
      (by rw [← h1] at hr; exact Prod.ext hr rfl) rfl]
    rcases hw : (restartDriver (spy x) ((spy x).Print "error:" (job w.env).1.2
        (w.record .doJob (job w.env).2))).2 with ⟨env2, calls2⟩
    rw [hw] at h2 h3
    simp only at h2 h3
    subst h2
    simp [spyJob, Spy.record, h3]

/-- Claim C5, as stated, fails: the first execution of the job fails with a
connectivity-class error and the reconnect fails, and the job has been executed once, not
twice. -/
theorem no_second_execution_when_reconnect_fails :
    IsConnectivityError (unreachableJob freshSpy.env).1.2 = true ∧
    (restartDriver (scripted deadDriver) 0).1 = some queryError ∧
    callsSince freshSpy
        (handleSessionError (spy (scripted deadDriver)) (spyJob unreachableJob) freshSpy).2
      = [.doJob, .Lock, .VerifyConnectivity, .Close, .Unlock] ∧
    ¬ (callsSince freshSpy
        (handleSessionError (spy (scripted deadDriver)) (spyJob unreachableJob) freshSpy).2
      ).countP Call.isDoJob = 2 :=
  ⟨rfl, rfl, rfl, by decide⟩

/-- Claim C5, amended. When the first execution of the job fails with a connectivity-class
error, `restartDriver` is invoked exactly once; the job is then executed exactly once more
(two executions in all, whatever the second one returns) if the reconnect succeeds, and
not again if the reconnect fails. When the first execution succeeds or fails with another
error, `restartDriver` is not invoked, the job is executed exactly once and its pair is
returned unchanged. -/
theorem handleSessionError_reconnects_once {σ T : Type} (x : External σ)
    (job : σ → (Option T × Option Error) × σ) (w : Spy σ) :
    (IsConnectivityError (job w.env).1.2 = true →
      (callsSince w (handleSessionError (spy x) (spyJob job) w).2).countP Call.isLock = 1 ∧
      ((restartDriver x (x.Print "error:" (job w.env).1.2 (job w.env).2)).1 = none →
        (callsSince w (handleSessionError (spy x) (spyJob job) w).2).countP Call.isDoJob = 2) ∧
      ((restartDriver x (x.Print "error:" (job w.env).1.2 (job w.env).2)).1 ≠ none →
        (callsSince w (handleSessionError (spy x) (spyJob job) w).2).countP Call.isDoJob = 1)) ∧
    (IsConnectivityError (job w.env).1.2 = false →
      callsSince w (handleSessionError (spy x) (spyJob job) w).2 = [.doJob] ∧
      (handleSessionError (spy x) (spyJob job) w).1 = (job w.env).1) := by
  constructor
  · intro hclass
    obtain ⟨l, hlock, hjob, hfail, hok⟩ := handleSessionError_spy_calls x job w hclass
    cases hr : (restartDriver x (x.Print "error:" (job w.env).1.2 (job w.env).2)).1 with
    | none =>
      rw [hok hr]
      simp [callsSince, List.countP_cons, List.countP_append, hlock, hjob, Call.isLock,
        Call.isDoJob]
    | some restartErr =>
      rw [hfail restartErr hr]
      simp [callsSince, List.countP_cons, hlock, hjob, Call.isLock, Call.isDoJob]
  · intro hclass
    rw [handleSessionError_no_retry (spy x) (spyJob job) w _ _ _ rfl hclass]
    simp [callsSince, spyJob, Spy.record, spy]

theorem handleSessionError_reconnects_once_witness :
    IsConnectivityError (unreachableJob freshSpy.env).1.2 = true ∧
    (callsSince freshSpy
        (handleSessionError (spy (scripted {})) (spyJob unreachableJob) freshSpy).2
      ).countP Call.isLock = 1 ∧
    (callsSince freshSpy
        (handleSessionError (spy (scripted {})) (spyJob unreachableJob) freshSpy).2
      ).countP Call.isDoJob = 2 :=
  ⟨rfl,
   ((handleSessionError_reconnects_once (scripted {}) unreachableJob freshSpy).1 rfl).1,
   ((handleSessionError_reconnects_once (scripted {}) unreachableJob freshSpy).1 rfl).2.1 rfl⟩

/-- Claim C6, as stated, fails: the reconnect succeeds and the second execution of the job
produces the pair (42, connection lost), yet the wrapper returns no result with that
error. -/
theorem result_of_failed_retry_is_dropped :
    IsConnectivityError (unreachableJob 0).1.2 = true ∧
    restartDriver (scripted {}) ((scripted {}).Print "error:" (unreachableJob 0).1.2
      (unreachableJob 0).2) = (none, 0) ∧
    (unreachableJob 0).1 = (some 42, some connectionLost) ∧
    (handleSessionError (scripted {}) unreachableJob 0).1 = (none, some connectionLost) ∧
    (handleSessionError (scripted {}) unreachableJob 0).1 ≠ (unreachableJob 0).1 :=
  ⟨rfl, rfl, rfl, rfl, by decide⟩

/-- Claim C6, amended. When the first execution of the job fails with a connectivity-class
error: if the reconnect fails, the wrapper returns no result and the error of the
reconnect, and the job has been executed once only; if the reconnect succeeds, the job is
executed in the state the reconnect left, and the wrapper returns its result with no error
when that execution succeeds, and no result with its error when it fails. -/
theorem handleSessionError_after_connectivity_failure {σ T : Type} (x : External σ)
    (job : σ → (Option T × Option Error) × σ) (w : Spy σ)
    (hclass : IsConnectivityError (job w.env).1.2 = true) :
    (∀ restartErr : Error,
      (restartDriver x (x.Print "error:" (job w.env).1.2 (job w.env).2)).1 = some restartErr →
      (handleSessionError (spy x) (spyJob job) w).1 = (none, some restartErr) ∧
      (callsSince w (handleSessionError (spy x) (spyJob job) w).2).countP Call.isDoJob = 1) ∧
    ((restartDriver x (x.Print "error:" (job w.env).1.2 (job w.env).2)).1 = none →
      (handleSessionError (spy x) (spyJob job) w).2.env
        = (job (restartDriver x (x.Print "error:" (job w.env).1.2 (job w.env).2)).2).2 ∧
      ((job (restartDriver x (x.Print "error:" (job w.env).1.2 (job w.env).2)).2).1.2 = none →
        (handleSessionError (spy x) (spyJob job) w).1
          = ((job (restartDriver x (x.Print "error:" (job w.env).1.2 (job w.env).2)).2).1.1,
              none)) ∧
      (∀ err2 : Error,
        (job (restartDriver x (x.Print "error:" (job w.env).1.2 (job w.env).2)).2).1.2
          = some err2 →
        (handleSessionError (spy x) (spyJob job) w).1 = (none, some err2))) := by
  obtain ⟨l, hlock, hjob, hfail, hok⟩ := handleSessionError_spy_calls x job w hclass
  constructor
  · intro restartErr hr
    rw [hfail restartErr hr]
    simp [callsSince, List.countP_cons, hjob, Call.isDoJob]
  · intro hr
    rw [hok hr]
    refine ⟨rfl, ?_, ?_⟩
    · intro h2; simp [h2]
    · intro err2 h2; simp [h2]

theorem handleSessionError_after_connectivity_failure_witness :
    IsConnectivityError (unreachableJob freshSpy.env).1.2 = true ∧
    (handleSessionError (spy (scripted deadDriver)) (spyJob unreachableJob) freshSpy).1
      = (none, some queryError) ∧
    (handleSessionError (spy (scripted {})) (spyJob unreachableJob) freshSpy).1
      = (none, some connectionLost) :=
  ⟨rfl,
   ((handleSessionError_after_connectivity_failure (scripted deadDriver) unreachableJob
      freshSpy rfl).1 queryError rfl).1,
   ((handleSessionError_after_connectivity_failure (scripted {}) unreachableJob
      freshSpy rfl).2 rfl).2.2 connectionLost rfl⟩

/-- Claim C10, the code at the failing input. Outside any transaction, a query that fails
with a connectivity-class error makes `ExecuteQuery` dereference the nil pointer that
`handleSessionError` returns with the error, both when the reconnect fails and when the
reconnect succeeds and the retried query fails again. -/
theorem ExecuteQuery_dereferences_nil :
    (handleSessionError (scripted deadDriver) (fun s =>
        match StartQueryExecution (scripted deadDriver) [] "MATCH (n) RETURN n" [] s with
        | ((dispose, result, err), s) => ((some result, err), dispose s)) 0).1
      = (none, some queryError) ∧
    (ExecuteQuery (scripted deadDriver) [] "MATCH (n) RETURN n" [] 0).1
      = .nilPointerDereference ∧
    (ExecuteQuery (scripted flakyQueries) [] "MATCH (n) RETURN n" [] 0).1
      = .nilPointerDereference ∧
    (ExecuteQuery (scripted {}) [] "MATCH (n) RETURN n" [] 0).1
      = .returned (some { id := 1 }, none) :=
  ⟨rfl, rfl, rfl, rfl⟩

/-! ## The nested call as a whole -/

theorem restartDriver_spy_reconnect {σ : Type} (x : External σ) (w : Spy σ) :
    (restartDriver (spy x) w).1 = (restartDriver x w.env).1 ∧
    (restartDriver (spy x) w).2.env = (restartDriver x w.env).2 ∧
    ∃ l, (restartDriver (spy x) w).2.calls = w.calls ++ l ∧
      ∀ a ∈ l, Call.isReconnect a = true := by
  simp only [restartDriver, NewDriver, spy, Spy.record]
  rcases h1 : x.VerifyConnectivity (x.Lock w.env) with ⟨v, e1⟩
  cases v with
  | none =>
    exact ⟨rfl, rfl, [.Lock, .VerifyConnectivity, .Unlock], by simp, by simp [Call.isReconnect]⟩
  | some verr =>
    simp only []
    rcases h2 : x.Close e1 with ⟨c, e2⟩
    cases c with
    | some cerr =>
      exact ⟨rfl, rfl, [.Lock, .VerifyConnectivity, .Close, .Unlock], by simp,
        by simp [Call.isReconnect]⟩
    | none =>
      simp only []
      rcases h3 : x.NewDriverWithContext (x.Getenv "NEO4J_URI" e2) (x.Getenv "NEO4J_USERNAME" e2)
        (x.Getenv "NEO4J_PASSWORD" e2) e2 with ⟨d, e3⟩
      cases d with
      | error derr =>
        exact ⟨rfl, rfl, [.Lock, .VerifyConnectivity, .Close,
          .NewDriverWithContext (x.Getenv "NEO4J_URI" e2)
            (x.Getenv "NEO4J_USERNAME" e2) (x.Getenv "NEO4J_PASSWORD" e2), .Unlock],
          by simp, by simp [Call.isReconnect]⟩
      | ok drv =>
        simp only []
        rcases h4 : x.VerifyConnectivityOf drv e3 with ⟨v2, e4⟩
        cases v2 with
        | some verr2 =>
          exact ⟨rfl, rfl, [.Lock, .VerifyConnectivity, .Close,
            .NewDriverWithContext (x.Getenv "NEO4J_URI" e2)
              (x.Getenv "NEO4J_USERNAME" e2) (x.Getenv "NEO4J_PASSWORD" e2),
            .VerifyConnectivityOf drv, .Unlock], by simp, by simp [Call.isReconnect]⟩
        | none =>
          exact ⟨rfl, rfl, [.Lock, .VerifyConnectivity, .Close,
            .NewDriverWithContext (x.Getenv "NEO4J_URI" e2)
              (x.Getenv "NEO4J_USERNAME" e2) (x.Getenv "NEO4J_PASSWORD" e2),
            .VerifyConnectivityOf drv, .Store drv, .Unlock], by simp,
            by simp [Call.isReconnect]⟩

theorem handleSessionError_recorded {σ T : Type} (x : External σ) (c : Call)
    (job : σ → (Option T × Option Error) × σ) (w : Spy σ)
    (hclass : IsConnectivityError (job w.env).1.2 = true) :
    ∃ l, (∀ a ∈ l, Call.isReconnect a = true) ∧
      (∀ restartErr : Error,
        (restartDriver x (x.Print "error:" (job w.env).1.2 (job w.env).2)).1 = some restartErr →
        handleSessionError (spy x) (fun v => ((job v.env).1, v.record c (job v.env).2)) w
          = ((none, some restartErr),
              { env := (restartDriver x (x.Print "error:" (job w.env).1.2 (job w.env).2)).2,
                calls := w.calls ++ c :: l })) ∧
      ((restartDriver x (x.Print "error:" (job w.env).1.2 (job w.env).2)).1 = none →
        handleSessionError (spy x) (fun v => ((job v.env).1, v.record c (job v.env).2)) w
          = ((if (job (restartDriver x
                  (x.Print "error:" (job w.env).1.2 (job w.env).2)).2).1.2.isSome
                then none
                else (job (restartDriver x
                  (x.Print "error:" (job w.env).1.2 (job w.env).2)).2).1.1,
              (job (restartDriver x (x.Print "error:" (job w.env).1.2 (job w.env).2)).2).1.2),
              { env := (job (restartDriver x
                  (x.Print "error:" (job w.env).1.2 (job w.env).2)).2).2,
                calls := w.calls ++ c :: (l ++ [c]) })) := by
  obtain ⟨h1, h2, l, h3, h4⟩ := restartDriver_spy_reconnect x
    ((spy x).Print "error:" (job w.env).1.2 (w.record c (job w.env).2))
  have hjob : (fun v : Spy σ => ((job v.env).1, v.record c (job v.env).2)) w
      = (((job w.env).1.1, (job w.env).1.2), w.record c (job w.env).2) := rfl
  have henv : ((spy x).Print "error:" (job w.env).1.2 (w.record c (job w.env).2)).env
      = x.Print "error:" (job w.env).1.2 (job w.env).2 := rfl
  have hcalls : ((spy x).Print "error:" (job w.env).1.2 (w.record c (job w.env).2)).calls
      = w.calls ++ [c] := rfl
  rw [henv] at h1 h2
  rw [hcalls] at h3
  refine ⟨l, h4, ?_, ?_⟩
  · intro restartErr hr
    rw [handleSessionError_restart_failed (spy x)
      (fun v : Spy σ => ((job v.env).1, v.record c (job v.env).2)) w _
      (restartDriver (spy x) ((spy x).Print "error:" (job w.env).1.2
        (w.record c (job w.env).2))).2 _ _ restartErr hjob hclass
      (by rw [← h1] at hr; exact Prod.ext hr rfl)]
    congr 1
    rcases hw : (restartDriver (spy x) ((spy x).Print "error:" (job w.env).1.2
        (w.record c (job w.env).2))).2 with ⟨env2, calls2⟩
    rw [hw] at h2 h3
    simp only at h2 h3
    simp [h2, h3]
  · intro hr
    rw [handleSessionError_retried (spy x)
      (fun v : Spy σ => ((job v.env).1, v.record c (job v.env).2)) w _
      (restartDriver (spy x) ((spy x).Print "error:" (job w.env).1.2
        (w.record c (job w.env).2))).2 _ _ _ _ _ hjob hclass
      (by rw [← h1] at hr; exact Prod.ext hr rfl) rfl]
    rcases hw : (restartDriver (spy x) ((spy x).Print "error:" (job w.env).1.2
        (w.record c (job w.env).2))).2 with ⟨env2, calls2⟩
    rw [hw] at h2 h3
    simp only at h2 h3
    subst h2
    simp [Spy.record, h3]

theorem handleSessionError_recorded_no_retry {σ T : Type} (x : External σ) (c : Call)
    (job : σ → (Option T × Option Error) × σ) (w : Spy σ)
    (hclass : IsConnectivityError (job w.env).1.2 = false) :
    handleSessionError (spy x) (fun v => ((job v.env).1, v.record c (job v.env).2)) w
      = ((job w.env).1,
          { env := x.Print "error:" (job w.env).1.2 (job w.env).2,
            calls := w.calls ++ [c] }) := by
  rw [handleSessionError_no_retry (spy x)
    (fun v : Spy σ => ((job v.env).1, v.record c (job v.env).2)) w
    (w.record c (job w.env).2) (job w.env).1.1 (job w.env).1.2 rfl hclass]
  rfl

theorem withTransaction_of_ambient {σ T : Type} (x : External σ) (ctx : Context)
    (tx : ExplicitTransaction) (run : TransactionRunner σ T) (opts : List OptionFunc)
    (w : Spy σ) (h : ambientTransaction ctx = some tx) :
    WithTransaction (spy x) ctx (spyRunner run) opts w
      = handleSessionError (spy x)
          (fun v => ((run (ctx.WithValue transaction (.explicitTransaction tx)) v.env).1,
            v.record (.runTransaction (ctx.WithValue transaction (.explicitTransaction tx)))
              (run (ctx.WithValue transaction (.explicitTransaction tx)) v.env).2)) w := by
  unfold WithTransaction
  congr 1
  funext v
  rw [execute_of_ambient _ _ tx _ _ _ h]
  rfl

theorem reconnect_call_kind (a : Call) (h : Call.isReconnect a = true) :
    Call.isNewSession a = false ∧ Call.isBeginTransaction a = false ∧
    Call.isCommit a = false ∧ Call.isRollback a = false ∧ Call.isTxClose a = false ∧
    Call.isSessionClose a = false ∧ Call.isRunTransaction a = false := by
  cases a <;> simp_all [Call.isReconnect, Call.isNewSession, Call.isBeginTransaction,
    Call.isCommit, Call.isRollback, Call.isTxClose, Call.isSessionClose,
    Call.isRunTransaction]

theorem withTransaction_ambient_calls {σ T : Type} (x : External σ) (ctx : Context)
    (tx : ExplicitTransaction) (run : TransactionRunner σ T) (opts : List OptionFunc)
    (w : Spy σ) (h : ambientTransaction ctx = some tx) :
    ∃ l, (∀ a ∈ l, Call.isReconnect a = true) ∧
      (callsSince w (WithTransaction (spy x) ctx (spyRunner run) opts w).2
          = [.runTransaction (ctx.WithValue transaction (.explicitTransaction tx))] ∨
       callsSince w (WithTransaction (spy x) ctx (spyRunner run) opts w).2
          = .runTransaction (ctx.WithValue transaction (.explicitTransaction tx)) :: l ∨
       callsSince w (WithTransaction (spy x) ctx (spyRunner run) opts w).2
          = .runTransaction (ctx.WithValue transaction (.explicitTransaction tx)) ::
              (l ++ [.runTransaction (ctx.WithValue transaction (.explicitTransaction tx))])) := by
  rw [withTransaction_of_ambient x ctx tx run opts w h]
  cases hclass : IsConnectivityError
      (run (ctx.WithValue transaction (.explicitTransaction tx)) w.env).1.2 with
  | false =>
    refine ⟨[], by simp, Or.inl ?_⟩
    rw [handleSessionError_recorded_no_retry x _ _ w hclass]
    simp [callsSince]
  | true =>
    obtain ⟨l, hl, hfail, hok⟩ := handleSessionError_recorded x
      (.runTransaction (ctx.WithValue transaction (.explicitTransaction tx)))
      (run (ctx.WithValue transaction (.explicitTransaction tx))) w hclass
    refine ⟨l, hl, Or.inr ?_⟩
    cases hr : (restartDriver x (x.Print "error:"
        (run (ctx.WithValue transaction (.explicitTransaction tx)) w.env).1.2
        (run (ctx.WithValue transaction (.explicitTransaction tx)) w.env).2)).1 with
    | none => right; rw [hok hr]; simp [callsSince]
    | some restartErr => left; rw [hfail restartErr hr]; simp [callsSince]

/-- Claim C3, as stated, fails for the nested call as a whole. In a context that carries
the open transaction 5, a unit of work that returns the result 7 with a connectivity-class
error is run a second time after a reconnect and the call returns no result with the
error; when the reconnect fails the call returns the error of the reconnect. Neither is
the pair of the unit of work. -/
theorem nested_call_retries_on_connectivity_error :
    ambientTransaction ambientCtx = some { id := 5 } ∧
    (droppedWork (ambientCtx.WithValue transaction (.explicitTransaction { id := 5 })) 0).1
      = (some 7, some connectionLost) ∧
    (WithTransaction (spy (scripted {})) ambientCtx (spyRunner droppedWork) [] freshSpy).1
      = (none, some connectionLost) ∧
    (WithTransaction (spy (scripted {})) ambientCtx (spyRunner droppedWork) [] freshSpy).2.calls
      = [.runTransaction (ambientCtx.WithValue transaction (.explicitTransaction { id := 5 })),
         .Lock, .VerifyConnectivity, .Unlock,
         .runTransaction (ambientCtx.WithValue transaction (.explicitTransaction { id := 5 }))] ∧
    (WithTransaction (spy (scripted deadDriver)) ambientCtx (spyRunner droppedWork) []
        freshSpy).1 = (none, some queryError) ∧
    (WithTransaction (spy (scripted {})) ambientCtx (spyRunner droppedWork) [] freshSpy).1
      ≠ (droppedWork (ambientCtx.WithValue transaction (.explicitTransaction { id := 5 })) 0).1 :=
  ⟨rfl, rfl, rfl, rfl, rfl, by decide⟩

/-- Claim C3, amended. In a context that carries an open transaction `tx`, a nested
`WithTransaction` call, for any options and any unit of work, opens no session, begins no
transaction and calls neither `Commit` nor `Rollback` nor `Close` on any transaction or
session: its calls are runs of the unit of work, each with a context whose transaction
lookup yields `tx`, and calls of the reconnect. When the unit of work does not fail with a
connectivity-class error, it is run once and its pair is returned unchanged. When it does,
the reconnect follows: if it fails the call returns its error and the unit of work has run
once; if it succeeds the unit of work is run once more, in the same context, and the call
returns the result of that run when it succeeds and no result with its error when it
fails. The execute step on its own is one run of the unit of work and returns its pair
unchanged. A query issued through `StartQueryExecution` with the context the unit of work
receives is one `Run` on `tx` with the normalised parameters, opens no session, and its
disposer does nothing. -/
theorem WithTransaction_joins_ambient {σ T : Type} (x : External σ) (ctx : Context)
    (tx : ExplicitTransaction) (run : TransactionRunner σ T) (opts : List OptionFunc)
    (w : Spy σ) (h : ambientTransaction ctx = some tx) :
    ambientTransaction (ctx.WithValue transaction (.explicitTransaction tx)) = some tx ∧
    (∀ a ∈ callsSince w (WithTransaction (spy x) ctx (spyRunner run) opts w).2, a = .runTransaction (ctx.WithValue transaction (.explicitTransaction tx)) ∨ Call.isReconnect a = true) ∧
    ((callsSince w (WithTransaction (spy x) ctx (spyRunner run) opts w).2).countP Call.isNewSession = 0 ∧
      (callsSince w (WithTransaction (spy x) ctx (spyRunner run) opts w).2).countP Call.isBeginTransaction = 0 ∧
      (callsSince w (WithTransaction (spy x) ctx (spyRunner run) opts w).2).countP Call.isCommit = 0 ∧
      (callsSince w (WithTransaction (spy x) ctx (spyRunner run) opts w).2).countP Call.isRollback = 0 ∧
      (callsSince w (WithTransaction (spy x) ctx (spyRunner run) opts w).2).countP Call.isTxClose = 0 ∧
      (callsSince w (WithTransaction (spy x) ctx (spyRunner run) opts w).2).countP Call.isSessionClose = 0) ∧
    (IsConnectivityError (run (ctx.WithValue transaction (.explicitTransaction tx)) w.env).1.2 = false →
      (WithTransaction (spy x) ctx (spyRunner run) opts w).1 = (run (ctx.WithValue transaction (.explicitTransaction tx)) w.env).1 ∧ callsSince w (WithTransaction (spy x) ctx (spyRunner run) opts w).2 = [.runTransaction (ctx.WithValue transaction (.explicitTransaction tx))]) ∧
    (IsConnectivityError (run (ctx.WithValue transaction (.explicitTransaction tx)) w.env).1.2 = true →
      (∀ restartErr : Error, (restartDriver x (x.Print "error:" (run (ctx.WithValue transaction (.explicitTransaction tx)) w.env).1.2 (run (ctx.WithValue transaction (.explicitTransaction tx)) w.env).2)).1 = some restartErr →
        (WithTransaction (spy x) ctx (spyRunner run) opts w).1 = (none, some restartErr) ∧
        (callsSince w (WithTransaction (spy x) ctx (spyRunner run) opts w).2).countP Call.isRunTransaction = 1) ∧
      ((restartDriver x (x.Print "error:" (run (ctx.WithValue transaction (.explicitTransaction tx)) w.env).1.2 (run (ctx.WithValue transaction (.explicitTransaction tx)) w.env).2)).1 = none →
        (WithTransaction (spy x) ctx (spyRunner run) opts w).1 = (if (run (ctx.WithValue transaction (.explicitTransaction tx)) (restartDriver x (x.Print "error:" (run (ctx.WithValue transaction (.explicitTransaction tx)) w.env).1.2 (run (ctx.WithValue transaction (.explicitTransaction tx)) w.env).2)).2).1.2.isSome then none
                  else (run (ctx.WithValue transaction (.explicitTransaction tx)) (restartDriver x (x.Print "error:" (run (ctx.WithValue transaction (.explicitTransaction tx)) w.env).1.2 (run (ctx.WithValue transaction (.explicitTransaction tx)) w.env).2)).2).1.1,
                 (run (ctx.WithValue transaction (.explicitTransaction tx)) (restartDriver x (x.Print "error:" (run (ctx.WithValue transaction (.explicitTransaction tx)) w.env).1.2 (run (ctx.WithValue transaction (.explicitTransaction tx)) w.env).2)).2).1.2) ∧
        (callsSince w (WithTransaction (spy x) ctx (spyRunner run) opts w).2).countP Call.isRunTransaction = 2)) ∧
    ((execute (spy x) ctx (spyRunner run) opts w).1 = (run (ctx.WithValue transaction (.explicitTransaction tx)) w.env).1 ∧
      (execute (spy x) ctx (spyRunner run) opts w).2.calls = w.calls ++ [.runTransaction (ctx.WithValue transaction (.explicitTransaction tx))]) ∧
    (∀ (cypher : String) (params : List (String × GoValue)) (v : Spy σ),
      (StartQueryExecution (spy x) (ctx.WithValue transaction (.explicitTransaction tx)) cypher params v).2.calls
        = v.calls ++ [.TxRun tx cypher (handleParamsEntries params)] ∧
      (StartQueryExecution (spy x) (ctx.WithValue transaction (.explicitTransaction tx)) cypher params v).1.2
        = (x.TxRun tx cypher (handleParamsEntries params) v.env).1 ∧
      ∀ u : Spy σ, (StartQueryExecution (spy x) (ctx.WithValue transaction (.explicitTransaction tx)) cypher params v).1.1 u = u) := by
  obtain ⟨l, hl, hshape⟩ := withTransaction_ambient_calls x ctx tx run opts w h
  have hall : ∀ a ∈ callsSince w (WithTransaction (spy x) ctx (spyRunner run) opts w).2,
      a = .runTransaction (ctx.WithValue transaction (.explicitTransaction tx)) ∨ Call.isReconnect a = true := by
    intro a ha
    rcases hshape with hs | hs | hs <;> rw [hs] at ha
    · simp at ha; exact Or.inl ha
    · rcases List.mem_cons.mp ha with ha | ha
      · exact Or.inl ha
      · exact Or.inr (hl a ha)
    · rcases List.mem_cons.mp ha with ha | ha
      · exact Or.inl ha
      · rcases List.mem_append.mp ha with ha | ha
        · exact Or.inr (hl a ha)
        · simp at ha; exact Or.inl ha
  refine ⟨ambientTransaction_withValue ctx tx, hall, ?_, ?_, ?_, ?_, ?_⟩
  · refine ⟨?_, ?_, ?_, ?_, ?_, ?_⟩ <;>
      (rw [List.countP_eq_zero]; intro a ha; rcases hall a ha with ha | ha)
    · subst ha; simp [Call.isNewSession]
    · simp [(reconnect_call_kind a ha).1]
    · subst ha; simp [Call.isBeginTransaction]
    · simp [(reconnect_call_kind a ha).2.1]
    · subst ha; simp [Call.isCommit]
    · simp [(reconnect_call_kind a ha).2.2.1]
    · subst ha; simp [Call.isRollback]
    · simp [(reconnect_call_kind a ha).2.2.2.1]
    · subst ha; simp [Call.isTxClose]
    · simp [(reconnect_call_kind a ha).2.2.2.2.1]
    · subst ha; simp [Call.isSessionClose]
    · simp [(reconnect_call_kind a ha).2.2.2.2.2.1]
  · intro hclass
    rw [withTransaction_of_ambient x ctx tx run opts w h,
      handleSessionError_recorded_no_retry x _ _ w hclass]
    exact ⟨rfl, by simp [callsSince]⟩
  · intro hclass
    obtain ⟨l2, hl2, hfail, hok⟩ := handleSessionError_recorded x (.runTransaction (ctx.WithValue transaction (.explicitTransaction tx)))
      (run (ctx.WithValue transaction (.explicitTransaction tx))) w hclass
    have hrun2 : l2.countP Call.isRunTransaction = 0 := by
      rw [List.countP_eq_zero]
      intro a ha
      simp [(reconnect_call_kind a (hl2 a ha)).2.2.2.2.2.2]
    constructor
    · intro restartErr hr
      rw [withTransaction_of_ambient x ctx tx run opts w h, hfail restartErr hr]
      refine ⟨rfl, ?_⟩
      simp [callsSince, List.countP_cons, hrun2, Call.isRunTransaction]
    · intro hr
      rw [withTransaction_of_ambient x ctx tx run opts w h, hok hr]
      refine ⟨rfl, ?_⟩
      simp [callsSince, List.countP_cons, List.countP_append, hrun2, Call.isRunTransaction]
  · rw [execute_of_ambient _ _ tx _ _ _ h]; exact ⟨rfl, rfl⟩
  · intro cypher params v
    simp [StartQueryExecution, ambientTransaction_withValue, handleParams,
      GoValue.assertMapStringAny, spy, Spy.record]

theorem WithTransaction_joins_ambient_witness :
    ambientTransaction ambientCtx = some { id := 5 } ∧
    (callsSince freshSpy
      (WithTransaction (spy (scripted {})) ambientCtx (spyRunner droppedWork) [] freshSpy).2
      ).countP Call.isNewSession = 0 ∧
    (WithTransaction (spy (scripted {})) ambientCtx (spyRunner droppedWork) [] freshSpy).1
      = (none, some connectionLost) ∧
    (callsSince freshSpy
      (WithTransaction (spy (scripted {})) ambientCtx (spyRunner droppedWork) [] freshSpy).2
      ).countP Call.isRunTransaction = 2 ∧
    (WithTransaction (spy (scripted {})) ambientCtx (spyRunner failingWork) [] freshSpy).1
      = (none, some queryError) :=
  ⟨rfl,
   (WithTransaction_joins_ambient (scripted {}) ambientCtx { id := 5 } droppedWork []
      freshSpy rfl).2.2.1.1,
   (((WithTransaction_joins_ambient (scripted {}) ambientCtx { id := 5 } droppedWork []
      freshSpy rfl).2.2.2.2.1 rfl).2 rfl).1,
   (((WithTransaction_joins_ambient (scripted {}) ambientCtx { id := 5 } droppedWork []
      freshSpy rfl).2.2.2.2.1 rfl).2 rfl).2,
   ((WithTransaction_joins_ambient (scripted {}) ambientCtx { id := 5 } failingWork []
      freshSpy rfl).2.2.2.1 rfl).1⟩

end Neo4jTx
